import Mathlib

/-!
A shallow embedding of the R2-D2 arcade controller's command-frame
protocol layer (`src/r2d2.py`): the checksum (`GenCrc`), the frame
codec (`BuildPacket`), the command catalog (`commandmap`), and the
per-event dispatch of the control loop in `main`.

Python integers are modelled by `Int` (Python `~x` is `-x - 1`, and
Python `%` with a positive modulus agrees with `Int.emod`).  Payloads
are `List Int`.  Dictionary lookup, which raises `KeyError` on a
missing key, is modelled with `Option`.
-/

namespace R2D2

/-- `GenCrc` from `src/r2d2.py`: starting from `ret = 0`, for each byte
`b` do `ret += b; ret = ret % 256`, then return `~ret % 256`.
Python's `~ret` is `-ret - 1`, and `%` by the positive constant 256
agrees with `Int.emod`. -/
def GenCrc (bytes : List Int) : Int :=
  let ret := bytes.foldl (fun r b => (r + b) % 256) 0
  (-ret - 1) % 256

/-- `BuildPacket` from `src/r2d2.py`: start from `[0x8D]`, append each
payload byte in order, append `GenCrc bytes`, append `0xD8`. -/
def BuildPacket (bytes : List Int) : List Int :=
  let ret := bytes.foldl (fun acc b => acc ++ [b]) [0x8D]
  (ret ++ [GenCrc bytes]) ++ [0xD8]

/-- The commands dictionary from `src/r2d2.py`, verbatim. -/
def commandmap : List (String × List Int) := [
  ("laugh", [0x0A,0x18,0x00,0x1F,0x00,0x32,0x00,0x00,0x00,0x00,0x00]),
  ("yes", [0x0A,0x17,0x05,0x41,0x00,0x0F]),
  ("no", [0x0A,0x17,0x05,0x3F,0x00,0x10]),
  ("alarm", [0x0A,0x17,0x05,0x17,0x00,0x07]),
  ("angry", [0x0A,0x17,0x05,0x18,0x00,0x08]),
  ("annoyed", [0x0A,0x17,0x05,0x19,0x00,0x09]),
  ("ionblast", [0x0A,0x17,0x05,0x1A,0x00,0x0E]),
  ("sad", [0x0A,0x17,0x05,0x1C,0x00,0x11]),
  ("scared", [0x0A,0x17,0x05,0x1D,0x00,0x13]),
  ("chatty", [0x0A,0x17,0x05,0x17,0x00,0x0A]),
  ("confident", [0x0A,0x17,0x05,0x18,0x00,0x12]),
  ("excited", [0x0A,0x17,0x05,0x19,0x00,0x0C]),
  ("happy", [0x0A,0x17,0x05,0x1A,0x00,0x0D]),
  ("laugh2", [0x0A,0x17,0x05,0x1B,0x00,0x0F]),
  ("surprise", [0x0A,0x17,0x05,0x1C,0x00,0x18]),
  ("tripod", [0x0A,0x17,0x0D,0x1D,0x01]),
  ("bipod", [0x0A,0x17,0x0D,0x1C,0x02]),
  ("rot+", [0x8D,0x0A,0x17,0x0F,0x1C,0x42,0xB4,0x00,0x00,0xBD,0xD8]),
  ("rot0", [0x8D,0x0A,0x17,0x0F,0x1E,0x00,0x00,0x00,0x00,0xB1,0xD8])
  ]

/-- Lookup in the commands dictionary, `commandmap[name]` in the
source; `none` models Python's `KeyError`. -/
def resolve (name : String) : Option (List Int) :=
  (commandmap.find? (fun e => e.1 == name)).map (fun e => e.2)

/-- The ordered command-name lists of the `if`/`elif` scancode dispatch
in `main` of `src/r2d2.py`, exactly as the names appear in each branch;
a scancode with no branch yields the empty list. -/
def plan (scancode : Nat) : List String :=
  if scancode = 65 then ["tripod", "yes"]
  else if scancode = 66 then ["bipod", "yes"]
  else if scancode = 67 then ["rot0", "no"]
  else if scancode = 68 then ["rot+", "surprise"]
  else if scancode = 122 then ["laugh", "happy", "excited"]
  else if scancode = 32 then ["surprise", "sad", "scared"]
  else if scancode = 120 then ["confident", "laugh2"]
  else if scancode = 105 then ["angry", "alarm"]
  else if scancode = 111 then ["chatty", "ionblast"]
  else []

/-- The `if`/`elif` dispatch of the control loop in `main`: each mapped
scancode appends the looked-up `commandmap` payloads, in source order,
to `sequences` and leaves `valid_command = true`; any other scancode
leaves `sequences` unchanged with `valid_command = false`. -/
def stepDispatch (sequences : List (List Int)) (scancode : Nat) :
    Option (List (List Int) × Bool) :=
  if scancode = 65 then do
    let a ← resolve "tripod"
    let b ← resolve "yes"
    pure (sequences ++ [a, b], true)
  else if scancode = 66 then do
    let a ← resolve "bipod"
    let b ← resolve "yes"
    pure (sequences ++ [a, b], true)
  else if scancode = 67 then do
    let a ← resolve "rot0"
    let b ← resolve "no"
    pure (sequences ++ [a, b], true)
  else if scancode = 68 then do
    let a ← resolve "rot+"
    let b ← resolve "surprise"
    pure (sequences ++ [a, b], true)
  else if scancode = 122 then do
    let a ← resolve "laugh"
    let b ← resolve "happy"
    let c ← resolve "excited"
    pure (sequences ++ [a, b, c], true)
  else if scancode = 32 then do
    let a ← resolve "surprise"
    let b ← resolve "sad"
    let c ← resolve "scared"
    pure (sequences ++ [a, b, c], true)
  else if scancode = 120 then do
    let a ← resolve "confident"
    let b ← resolve "laugh2"
    pure (sequences ++ [a, b], true)
  else if scancode = 105 then do
    let a ← resolve "angry"
    let b ← resolve "alarm"
    pure (sequences ++ [a, b], true)
  else if scancode = 111 then do
    let a ← resolve "chatty"
    let b ← resolve "ionblast"
    pure (sequences ++ [a, b], true)
  else pure (sequences, false)

/-- One iteration of the control loop in `main`, after the scancode has
been read: run the dispatch, then, when `valid_command` is set, write
`BuildPacket seq` to the transport for each `seq` in `sequences`, in
order; finally `del sequences[:]`.  Returns the list of frames written
during the iteration and the `sequences` state left for the next
iteration. -/
def runIteration (sequences : List (List Int)) (scancode : Nat) :
    Option (List (List Int) × List (List Int)) := do
  let (seqs, valid) ← stepDispatch sequences scancode
  let frames := if valid then seqs.map BuildPacket else []
  pure (frames, [])

/-! ### Basic computation lemmas -/

/-- Appending elements one by one is list append. -/
lemma foldl_append_eq (l init : List Int) :
    l.foldl (fun acc b => acc ++ [b]) init = init ++ l := by
  induction l generalizing init with
  | nil => simp
  | cons b l ih => simp [List.foldl_cons, ih]

/-- The running modular accumulation of `GenCrc` computes the byte sum
modulo 256. -/
lemma crc_foldl_eq_sum (l : List Int) (a : Int) :
    l.foldl (fun r b => (r + b) % 256) (a % 256) = (a + l.sum) % 256 := by
  induction l generalizing a with
  | nil => simp
  | cons b l ih =>
    have h1 : (a % 256 + b) % 256 = (a + b) % 256 := by omega
    simp only [List.foldl_cons, List.sum_cons, h1, ih (a + b)]
    ring_nf

/-- `GenCrc` in closed form: the complement of the byte sum mod 256. -/
lemma GenCrc_eq (l : List Int) : GenCrc l = (-(l.sum % 256) - 1) % 256 := by
  have h := crc_foldl_eq_sum l 0
  simp only [Int.zero_emod, zero_add] at h
  simp [GenCrc, h]

/-- The dispatch always succeeds, appending exactly the payloads of the
scancode's planned command names and reporting validity. -/
lemma stepDispatch_eq (s : List (List Int)) (c : Nat) :
    stepDispatch s c =
      some (s ++ (plan c).filterMap resolve, !(plan c).isEmpty) := by
  by_cases h1 : c = 65
  · subst h1; rfl
  by_cases h2 : c = 66
  · subst h2; rfl
  by_cases h3 : c = 67
  · subst h3; rfl
  by_cases h4 : c = 68
  · subst h4; rfl
  by_cases h5 : c = 122
  · subst h5; rfl
  by_cases h6 : c = 32
  · subst h6; rfl
  by_cases h7 : c = 120
  · subst h7; rfl
  by_cases h8 : c = 105
  · subst h8; rfl
  by_cases h9 : c = 111
  · subst h9; rfl
  simp [stepDispatch, plan, h1, h2, h3, h4, h5, h6, h7, h8, h9, Pure.pure]

/-- One loop iteration always succeeds: when the scancode is mapped it
writes the packets of the accumulated sequences in order, otherwise it
writes nothing, and in both cases it clears the sequence list. -/
lemma runIteration_eq (s : List (List Int)) (c : Nat) :
    runIteration s c =
      some ((if (plan c).isEmpty then []
             else (s ++ (plan c).filterMap resolve).map BuildPacket), []) := by
  cases h : (plan c).isEmpty <;>
    simp [runIteration, stepDispatch_eq, h]

/-! ### Claims -/

/-- Claim C1: for every payload P, `BuildPacket P` equals
`[0x8D] ++ P ++ [GenCrc P] ++ [0xD8]`: its length is `P.length + 3`,
its first byte is `0x8D`, its last byte is `0xD8`, its second-to-last
byte (index `P.length + 1`) is `GenCrc P`, and the payload bytes appear
in between in their original order, unchanged. -/
theorem C1_frame_shape (P : List Int) :
    BuildPacket P = [0x8D] ++ P ++ [GenCrc P] ++ [0xD8] ∧
    (BuildPacket P).length = P.length + 3 ∧
    (BuildPacket P).head? = some 0x8D ∧
    (BuildPacket P).getLast? = some 0xD8 ∧
    (BuildPacket P)[P.length + 1]? = some (GenCrc P) ∧
    ((BuildPacket P).drop 1).take P.length = P := by
  have hb : BuildPacket P = [0x8D] ++ P ++ [GenCrc P] ++ [0xD8] := by
    simp [BuildPacket, foldl_append_eq]
  refine ⟨hb, ?_, ?_, ?_, ?_, ?_⟩
  · simp [hb]
  · simp [hb]
  · rw [hb]
    have h : ([0x8D] ++ P ++ [GenCrc P] ++ [0xD8] : List Int) =
        ((0x8D : Int) :: P ++ [GenCrc P]) ++ [0xD8] := by simp
    rw [h, List.getLast?_concat]
  · rw [hb]
    have h : ([0x8D] ++ P ++ [GenCrc P] ++ [0xD8] : List Int) =
        (0x8D : Int) :: (P ++ [GenCrc P, 0xD8]) := by simp
    rw [h, List.getElem?_cons_succ, List.getElem?_append_right (Nat.le_refl _)]
    simp
  · rw [hb]
    have h : ([0x8D] ++ P ++ [GenCrc P] ++ [0xD8] : List Int) =
        (0x8D : Int) :: (P ++ [GenCrc P, 0xD8]) := by simp
    rw [h]
    simp [List.take_left]

/-- Claim C2: for every payload of bytes in 0..255, `GenCrc` equals
`(255 - (sum % 256)) % 256`, and `GenCrc` of the empty payload is
255. -/
theorem C2_checksum_closed_form (P : List Int)
    (h : ∀ b ∈ P, 0 ≤ b ∧ b ≤ 255) :
    GenCrc P = (255 - P.sum % 256) % 256 ∧ GenCrc [] = 255 := by
  refine ⟨?_, by decide⟩
  rw [GenCrc_eq]
  have h1 := Int.emod_nonneg P.sum (by norm_num : (256 : Int) ≠ 0)
  have h2 := Int.emod_lt_of_pos P.sum (by norm_num : (0 : Int) < 256)
  omega

theorem C2_checksum_closed_form_witness :
    (∀ b ∈ ([0x0A, 0x17] : List Int), 0 ≤ b ∧ b ≤ 255) ∧
    (GenCrc [0x0A, 0x17] = (255 - ([0x0A, 0x17] : List Int).sum % 256) % 256 ∧
      GenCrc [] = 255) :=
  ⟨by decide, C2_checksum_closed_form [0x0A, 0x17] (by decide)⟩

/-- Claim C3 as stated is false: `GenCrc [0x0A, 0x17, 0x05, 0x41, 0x00]`
does not return `0x92` (146).  The byte sum is
`0x0A + 0x17 + 0x05 + 0x41 + 0x00 = 0x67 = 103` (not `0x6D = 109` as the
spec computed), so the checksum is `255 - 103 = 152 = 0x98`. -/
theorem C3_checksum_example_counterexample :
    GenCrc [0x0A, 0x17, 0x05, 0x41, 0x00] ≠ 0x92 := by decide

/-- Claim C3, amended: `GenCrc` applied to the payload
`[0x0A, 0x17, 0x05, 0x41, 0x00]` returns `0x98` (152), the complement of
the byte sum `0x67 = 103`. -/
theorem C3_checksum_example :
    GenCrc [0x0A, 0x17, 0x05, 0x41, 0x00] = 0x98 := by decide

/-- Claim C4: each mapped scancode plans exactly the ordered
command-name list of the event table, and one iteration of the loop
emits exactly one `BuildPacket` frame per planned command, in list
order. -/
theorem C4_event_table :
    plan 65 = ["tripod", "yes"] ∧
    plan 66 = ["bipod", "yes"] ∧
    plan 67 = ["rot0", "no"] ∧
    plan 68 = ["rot+", "surprise"] ∧
    plan 122 = ["laugh", "happy", "excited"] ∧
    plan 32 = ["surprise", "sad", "scared"] ∧
    plan 120 = ["confident", "laugh2"] ∧
    plan 105 = ["angry", "alarm"] ∧
    plan 111 = ["chatty", "ionblast"] ∧
    (∀ c, runIteration [] c =
      some (((plan c).filterMap resolve).map BuildPacket, [])) := by
  refine ⟨rfl, rfl, rfl, rfl, rfl, rfl, rfl, rfl, rfl, ?_⟩
  intro c
  rw [runIteration_eq]
  cases h : (plan c).isEmpty
  · simp [h]
  · rw [List.isEmpty_iff] at h
    simp [h]

/-- Claim C5: for every scancode outside the mapped set, the plan is
empty and the loop iteration writes no frame, completing normally. -/
theorem C5_unmapped_event (c : Nat)
    (h : c ∉ ([65, 66, 67, 68, 122, 32, 120, 105, 111] : List Nat)) :
    plan c = [] ∧ runIteration [] c = some ([], []) := by
  simp only [List.mem_cons, List.not_mem_nil, or_false] at h
  push_neg at h
  obtain ⟨h1, h2, h3, h4, h5, h6, h7, h8, h9⟩ := h
  have hp : plan c = [] := by
    simp [plan, h1, h2, h3, h4, h5, h6, h7, h8, h9]
  refine ⟨hp, ?_⟩
  rw [runIteration_eq]
  simp [hp]

theorem C5_unmapped_event_witness :
    (70 : Nat) ∉ ([65, 66, 67, 68, 122, 32, 120, 105, 111] : List Nat) ∧
    (plan 70 = [] ∧ runIteration [] 70 = some ([], [])) :=
  ⟨by decide, C5_unmapped_event 70 (by decide)⟩

/-- Claim C6: every frame written by an iteration is `BuildPacket` of
the catalog payload exactly as stored, uniformly; in particular the
pre-framed entries `rot+` and `rot0` resolve to their stored byte
sequences, which already begin with `0x8D` and end with `0xD8`, and
are framed verbatim like any other entry. -/
theorem C6_uniform_codec (c : Nat) (frames after : List (List Int))
    (h : runIteration [] c = some (frames, after)) :
    frames = ((plan c).filterMap resolve).map BuildPacket ∧
    resolve "rot+" =
      some [0x8D, 0x0A, 0x17, 0x0F, 0x1C, 0x42, 0xB4, 0x00, 0x00, 0xBD, 0xD8] ∧
    resolve "rot0" =
      some [0x8D, 0x0A, 0x17, 0x0F, 0x1E, 0x00, 0x00, 0x00, 0x00, 0xB1, 0xD8] := by
  refine ⟨?_, rfl, rfl⟩
  rw [runIteration_eq] at h
  injection h with h
  cases h
  cases hp : (plan c).isEmpty
  · simp [hp]
  · rw [List.isEmpty_iff] at hp
    simp [hp]

theorem C6_uniform_codec_witness :
    [BuildPacket [0x8D, 0x0A, 0x17, 0x0F, 0x1C, 0x42, 0xB4, 0x00, 0x00, 0xBD, 0xD8],
     BuildPacket [0x0A, 0x17, 0x05, 0x1C, 0x00, 0x18]] =
      ((plan 68).filterMap resolve).map BuildPacket ∧
    resolve "rot+" =
      some [0x8D, 0x0A, 0x17, 0x0F, 0x1C, 0x42, 0xB4, 0x00, 0x00, 0xBD, 0xD8] ∧
    resolve "rot0" =
      some [0x8D, 0x0A, 0x17, 0x0F, 0x1E, 0x00, 0x00, 0x00, 0x00, 0xB1, 0xD8] :=
  C6_uniform_codec 68
    [BuildPacket [0x8D, 0x0A, 0x17, 0x0F, 0x1C, 0x42, 0xB4, 0x00, 0x00, 0xBD, 0xD8],
     BuildPacket [0x0A, 0x17, 0x05, 0x1C, 0x00, 0x18]] [] (by decide)

/-- Claim C7: every command name appearing in any row of the event
table is present in the catalog, and every catalog payload is a
non-empty byte sequence. -/
theorem C7_catalog_complete :
    (([65, 66, 67, 68, 122, 32, 120, 105, 111].flatMap plan).all
      (fun n => (resolve n).isSome) = true) ∧
    (commandmap.all (fun e => !e.2.isEmpty) = true) := by decide

/-- Claim C8: after every loop iteration, mapped or not, the pending
sequence state handed to the next iteration is empty, so no command
carries over between events. -/
theorem C8_state_cleared (seqs : List (List Int)) (c : Nat)
    (r : List (List Int) × List (List Int))
    (h : runIteration seqs c = some r) : r.2 = [] := by
  rw [runIteration_eq] at h
  injection h with h
  cases h
  rfl

theorem C8_state_cleared_witness :
    (([], []) : List (List Int) × List (List Int)).2 = [] :=
  C8_state_cleared [] 70 ([], []) (by decide)

/-- Claim C9: for every list of bytes in 0..255, `GenCrc` returns an
integer in 0..255 even though the accumulation and the bitwise NOT are
carried out in unbounded integers. -/
theorem C9_checksum_in_byte_range (P : List Int)
    (h : ∀ b ∈ P, 0 ≤ b ∧ b ≤ 255) :
    0 ≤ GenCrc P ∧ GenCrc P ≤ 255 := by
  rw [GenCrc_eq]
  have h1 := Int.emod_nonneg (-(P.sum % 256) - 1) (by norm_num : (256 : Int) ≠ 0)
  have h2 := Int.emod_lt_of_pos (-(P.sum % 256) - 1) (by norm_num : (0 : Int) < 256)
  omega

theorem C9_checksum_in_byte_range_witness :
    (∀ b ∈ ([3, 200] : List Int), 0 ≤ b ∧ b ≤ 255) ∧
    (0 ≤ GenCrc [3, 200] ∧ GenCrc [3, 200] ≤ 255) :=
  ⟨by decide, C9_checksum_in_byte_range [3, 200] (by decide)⟩

/-- Claim C10: `GenCrc` is invariant under permutation of the payload:
reordering the bytes never changes the checksum, so the integrity byte
cannot detect byte transposition. -/
theorem C10_checksum_perm_invariant (P Q : List Int) (h : P.Perm Q) :
    GenCrc Q = GenCrc P := by
  rw [GenCrc_eq, GenCrc_eq, h.sum_eq]

theorem C10_checksum_perm_invariant_witness :
    ([1, 2, 3] : List Int).Perm [3, 1, 2] ∧ GenCrc [3, 1, 2] = GenCrc [1, 2, 3] :=
  ⟨by decide, C10_checksum_perm_invariant [1, 2, 3] [3, 1, 2] (by decide)⟩

end R2D2
